import Mathlib

/-!
Shallow embedding of `bot.py` from the `A_share_timing` repository.

The script fetches a handful of market indicators, evaluates them against a
fixed threshold table, derives an action recommendation from the green/red
counts, renders a text report, and sends it to a messaging endpoint.

Python floats are modelled as rationals (`ℚ`); Python `None` as `Option.none`;
Python strings as Lean `String` (a sequence of unicode code points, as in
Python).  Network I/O is modelled by passing the responses that successive
HTTP requests would produce as explicit arguments.
-/

namespace AShare

/-- Python's `round(x)` rounds half to even (banker's rounding); this is the
integer-valued helper used to model `round(x, 2)`. -/
def roundHalfEven (q : ℚ) : ℤ :=
  if q - ⌊q⌋ < 1/2 then ⌊q⌋
  else if 1/2 < q - ⌊q⌋ then ⌊q⌋ + 1
  else if ⌊q⌋ % 2 = 0 then ⌊q⌋ else ⌊q⌋ + 1

/-- Python `round(x, 2)`: round to two decimal places, half to even. -/
def round2 (q : ℚ) : ℚ := (roundHalfEven (q * 100) : ℚ) / 100

/-- `compute_erp` (bot.py lines 240-245).  Python:
`if pe and pe > 0 and cgb10y is not None: return round(100.0/pe - cgb10y, 2)`;
otherwise `None`.  A `pe` of `0` is falsy in Python and also fails `pe > 0`,
so the guard is equivalent to `pe` present and strictly positive and `cgb10y`
present. -/
def compute_erp (pe : Option ℚ) (cgb10y : Option ℚ) : Option ℚ :=
  match pe, cgb10y with
  | some p, some y => if 0 < p then some (round2 (100 / p - y)) else none
  | _, _ => none

/-- C4: `compute_erp(pe, yield)` returns `100/pe - yield` rounded to two
decimals whenever `pe` is present and strictly positive and `yield` is
present, and returns absent otherwise (`pe` absent, `pe` not positive, or
`yield` absent); for `pe = 18.0` and `yield = 2.2` the result is `3.36`. -/
theorem compute_erp_spec :
    (∀ p y : ℚ, compute_erp (some p) (some y) =
      if 0 < p then some (round2 (100 / p - y)) else none) ∧
    (∀ y, compute_erp none y = none) ∧
    (∀ p, compute_erp p none = none) ∧
    compute_erp (some 18) (some (2.2 : ℚ)) = some (3.36 : ℚ) := by
  refine ⟨fun p y => rfl, fun y => rfl, fun p => ?_, ?_⟩
  · cases p <;> rfl
  · show (if (0:ℚ) < 18 then some (round2 (100 / 18 - 2.2)) else none) = some (3.36 : ℚ)
    rw [if_pos (by norm_num)]
    have h1 : ((100:ℚ) / 18 - 2.2) * 100 = 3020/9 := by norm_num
    have h2 : roundHalfEven (3020/9) = 336 := by
      have hf : ⌊(3020/9 : ℚ)⌋ = 335 := by
        rw [Int.floor_eq_iff] ; norm_num
      rw [roundHalfEven, hf]
      norm_num
    rw [round2, h1, h2]
    norm_num

/-- The fetched and derived indicator inputs consumed by the evaluation part
of `build_summary` (bot.py lines 249-254): each field is `none` exactly when
the corresponding fetcher returned Python `None`.  `nb5` is the
`(five_day_sum, last_day)` pair of `fetch_northbound_5day_inflow`;
`lev_heat` is the `lev_ratio` value of the leverage-heat fetcher. -/
structure Inputs where
  sh_pe : Option ℚ
  allA_pe : Option ℚ
  cgb10y : Option ℚ
  nb5 : Option (ℚ × ℚ)
  lev_heat : Option ℚ
  profit_breadth_ok : Option Bool

/-- Python `v is not None and v <= bound`. -/
def leB (v : Option ℚ) (bound : ℚ) : Bool :=
  match v with
  | some x => decide (x ≤ bound)
  | none => false

/-- Python `v is not None and v >= bound`. -/
def geB (v : Option ℚ) (bound : ℚ) : Bool :=
  match v with
  | some x => decide (bound ≤ x)
  | none => false

/-- `THRESHOLDS["valuation"]["green"]["sh_pe_ttm_max"]` (bot.py line 27). -/
def sh_pe_ttm_max : ℚ := 17.5

/-- `THRESHOLDS["valuation"]["green"]["allA_pe_ttm_max"]` (bot.py line 27). -/
def allA_pe_ttm_max : ℚ := 18.0

/-- `THRESHOLDS["valuation"]["red"]["sh_pe_ttm_min"]` (bot.py line 28). -/
def sh_pe_ttm_min : ℚ := 18.5

/-- `THRESHOLDS["valuation"]["red"]["allA_pe_ttm_min"]` (bot.py line 28). -/
def allA_pe_ttm_min : ℚ := 19.0

/-- `THRESHOLDS["erp"]["green"]["erp_min"]` (bot.py line 31). -/
def erp_min : ℚ := 3.8

/-- `THRESHOLDS["erp"]["red"]["erp_max"]` (bot.py line 32). -/
def erp_max : ℚ := 3.2

/-- Green side of the northbound branch of `build_summary` (lines 286-291):
when `nb5` is present and its five-day sum is strictly positive the green
label is appended. -/
def nbGreen (nb5 : Option (ℚ × ℚ)) : List String :=
  match nb5 with
  | some (five_sum, _) => if 0 < five_sum then ["北向5日净流入为正 ✅"] else []
  | none => []

/-- Red side of the northbound branch of `build_summary` (lines 286-291): the
`else` of `if five_sum > 0` appends the red label. -/
def nbRed (nb5 : Option (ℚ × ℚ)) : List String :=
  match nb5 with
  | some (five_sum, _) => if 0 < five_sum then [] else ["北向5日净流入为负 ❌"]
  | none => []

/-- The `greens` list built by `build_summary` (bot.py lines 259-291), with
the appends in source order: SH valuation, all-A valuation, ERP, profit
breadth (`is True`), northbound. -/
def greensOf (i : Inputs) : List String :=
  let erp := compute_erp i.sh_pe i.cgb10y
  (if leB i.sh_pe sh_pe_ttm_max then ["估值-上证PE≤17.5 ✅"] else []) ++
  (if leB i.allA_pe allA_pe_ttm_max then ["估值-全A(代理)≤18x ✅"] else []) ++
  (if geB erp erp_min then ["ERP≥3.8% ✅"] else []) ++
  (if i.profit_breadth_ok = some true then ["盈利覆盖面(最新季度)环比改善 ✅"] else []) ++
  nbGreen i.nb5

/-- The `reds` list built by `build_summary` (bot.py lines 259-295), with the
appends in source order: SH valuation, all-A valuation, ERP, profit breadth
(`is False`), northbound, leverage heat (`lev_ratio >= 0.03`). -/
def redsOf (i : Inputs) : List String :=
  let erp := compute_erp i.sh_pe i.cgb10y
  (if geB i.sh_pe sh_pe_ttm_min then ["估值-上证PE≥18.5 ❌"] else []) ++
  (if geB i.allA_pe allA_pe_ttm_min then ["估值-全A(代理)≥19x ❌"] else []) ++
  (if leB erp erp_max then ["ERP≤3.2% ❌"] else []) ++
  (if i.profit_breadth_ok = some false then ["盈利覆盖面(最新季度)环比转弱 ❌"] else []) ++
  nbRed i.nb5 ++
  (if geB i.lev_heat 0.03 then ["两融/流通 ≥3%（热） ❌"] else [])

/-- The action selection of `build_summary` (bot.py lines 302-306): start
from the hold recommendation, overwrite with the advance recommendation when
`green_count >= 3 and red_count <= 1`, then overwrite with the retreat
recommendation when `red_count >= 2`. -/
def decideAction (green_count red_count : ℕ) : String :=
  let action := "保持中性"
  let action := if green_count ≥ 3 ∧ red_count ≤ 1 then
    "可逐步推进至 35% 权益（结构偏红利/龙头）" else action
  if red_count ≥ 2 then "回落至 ≤30% 权益，并降低高估赛道敞口" else action

/-- `build_summary`, decision part: the action computed from the lengths of
the two label lists (bot.py lines 298-306). -/
def actionOf (i : Inputs) : String :=
  decideAction (greensOf i).length (redsOf i).length

/-- `nbGreen` on an absent northbound pair. -/
theorem nbGreen_none : nbGreen none = [] := rfl

/-- `nbRed` on an absent northbound pair. -/
theorem nbRed_none : nbRed none = [] := rfl

/-- A string different from the northbound green label is never in `nbGreen`. -/
theorem not_mem_nbGreen {x : String} (h : x ≠ "北向5日净流入为正 ✅") :
    ∀ v : Option (ℚ × ℚ), x ∉ nbGreen v
  | none => by simp [nbGreen]
  | some (a, b) => by
      simp only [nbGreen]
      split_ifs <;> simp [h]

/-- A string different from the northbound red label is never in `nbRed`. -/
theorem not_mem_nbRed {x : String} (h : x ≠ "北向5日净流入为负 ❌") :
    ∀ v : Option (ℚ × ℚ), x ∉ nbRed v
  | none => by simp [nbRed]
  | some (a, b) => by
      simp only [nbRed]
      split_ifs <;> simp [h]

/-- C1: the decision policy of `build_summary` is a deterministic function of
`(green_count, red_count)`: `green_count ≥ 3` with `red_count ≤ 1` yields the
advance recommendation; the retreat check runs afterwards and unconditionally
overrides, so `red_count ≥ 2` always yields the retreat recommendation;
anything else yields hold.  In particular `(3,0)` advances, `(1,2)` and
`(3,2)` retreat, and `(1,0)` holds. -/
theorem decideAction_spec (g r : ℕ) :
    (g ≥ 3 → r ≤ 1 → decideAction g r = "可逐步推进至 35% 权益（结构偏红利/龙头）") ∧
    (r ≥ 2 → decideAction g r = "回落至 ≤30% 权益，并降低高估赛道敞口") ∧
    (¬(g ≥ 3 ∧ r ≤ 1) → ¬(r ≥ 2) → decideAction g r = "保持中性") ∧
    decideAction 3 0 = "可逐步推进至 35% 权益（结构偏红利/龙头）" ∧
    decideAction 1 2 = "回落至 ≤30% 权益，并降低高估赛道敞口" ∧
    decideAction 3 2 = "回落至 ≤30% 权益，并降低高估赛道敞口" ∧
    decideAction 1 0 = "保持中性" := by
  refine ⟨?_, ?_, ?_, by rfl, by rfl, by rfl, by rfl⟩ <;>
  · intros
    simp only [decideAction]
    split_ifs <;> first | rfl | (exfalso ; omega)

/-- Witness for C1 at `(green, red) = (3, 0)`. -/
theorem decideAction_spec_witness :
    decideAction 3 0 = "可逐步推进至 35% 权益（结构偏红利/龙头）" :=
  (decideAction_spec 3 0).1 (by norm_num) (by norm_num)

/-- C2: an indicator whose value is absent contributes no label to either the
green list or the red list: every rule is gated on its inputs being present,
so an absent input is silently excluded from both lists, for every
combination of the other inputs. -/
theorem absent_no_label (i : Inputs) :
    (i.sh_pe = none →
      "估值-上证PE≤17.5 ✅" ∉ greensOf i ∧ "估值-上证PE≥18.5 ❌" ∉ redsOf i) ∧
    (i.allA_pe = none →
      "估值-全A(代理)≤18x ✅" ∉ greensOf i ∧ "估值-全A(代理)≥19x ❌" ∉ redsOf i) ∧
    (compute_erp i.sh_pe i.cgb10y = none →
      "ERP≥3.8% ✅" ∉ greensOf i ∧ "ERP≤3.2% ❌" ∉ redsOf i) ∧
    (i.profit_breadth_ok = none →
      "盈利覆盖面(最新季度)环比改善 ✅" ∉ greensOf i ∧
      "盈利覆盖面(最新季度)环比转弱 ❌" ∉ redsOf i) ∧
    (i.nb5 = none →
      "北向5日净流入为正 ✅" ∉ greensOf i ∧ "北向5日净流入为负 ❌" ∉ redsOf i) ∧
    (i.lev_heat = none → "两融/流通 ≥3%（热） ❌" ∉ redsOf i) := by
  refine ⟨fun h => ⟨?_, ?_⟩, fun h => ⟨?_, ?_⟩, fun h => ⟨?_, ?_⟩,
      fun h => ⟨?_, ?_⟩, fun h => ⟨?_, ?_⟩, fun h => ?_⟩ <;>
    simp_all [greensOf, redsOf, leB, geB, nbGreen_none, nbRed_none,
      not_mem_nbGreen, not_mem_nbRed]

/-- Witness for C2 with every indicator absent. -/
theorem absent_no_label_witness :
    "估值-上证PE≤17.5 ✅" ∉ greensOf ⟨none, none, none, none, none, none⟩ ∧
    "两融/流通 ≥3%（热） ❌" ∉ redsOf ⟨none, none, none, none, none, none⟩ :=
  ⟨((absent_no_label ⟨none, none, none, none, none, none⟩).1 rfl).1,
   (absent_no_label ⟨none, none, none, none, none, none⟩).2.2.2.2.2 rfl⟩

/-- C3: an index P/E exactly at the green cutoff 17.5 produces the green
label, exactly at the red cutoff 18.5 produces the red label, and any value
strictly between the two cutoffs produces neither (a neutral band). -/
theorem index_pe_boundary (i : Inputs) :
    (i.sh_pe = some (17.5 : ℚ) → "估值-上证PE≤17.5 ✅" ∈ greensOf i) ∧
    (i.sh_pe = some (18.5 : ℚ) → "估值-上证PE≥18.5 ❌" ∈ redsOf i) ∧
    (∀ x : ℚ, i.sh_pe = some x → (17.5 : ℚ) < x → x < (18.5 : ℚ) →
      "估值-上证PE≤17.5 ✅" ∉ greensOf i ∧ "估值-上证PE≥18.5 ❌" ∉ redsOf i) := by
  refine ⟨fun h => ?_, fun h => ?_, fun x h h1 h2 => ⟨?_, ?_⟩⟩
  · simp [greensOf, leB, sh_pe_ttm_max, h]
  · simp [redsOf, geB, sh_pe_ttm_min, h]
  · simp_all [greensOf, leB, geB, sh_pe_ttm_max, h1.not_le,
      not_mem_nbGreen, not_mem_nbRed]
  · simp_all [redsOf, leB, geB, sh_pe_ttm_min, h2.not_le,
      not_mem_nbGreen, not_mem_nbRed]

/-- Witness for C3 at `sh_pe = 18`, inside the neutral band. -/
theorem index_pe_boundary_witness :
    "估值-上证PE≤17.5 ✅" ∉ greensOf ⟨some 18, none, none, none, none, none⟩ ∧
    "估值-上证PE≥18.5 ❌" ∉ redsOf ⟨some 18, none, none, none, none, none⟩ :=
  (index_pe_boundary ⟨some 18, none, none, none, none, none⟩).2.2 18 rfl
    (by norm_num) (by norm_num)

/-- C9: the northbound rule has no neutral band: a present
`(five_day_sum, last_day)` pair contributes exactly one label — green when
the five-day sum is strictly positive, red otherwise, so a sum of exactly
zero is classified red. -/
theorem northbound_no_neutral (i : Inputs) (s l : ℚ) (h : i.nb5 = some (s, l)) :
    (0 < s →
      "北向5日净流入为正 ✅" ∈ greensOf i ∧ "北向5日净流入为负 ❌" ∉ redsOf i) ∧
    (¬ 0 < s →
      "北向5日净流入为负 ❌" ∈ redsOf i ∧ "北向5日净流入为正 ✅" ∉ greensOf i) ∧
    (s = 0 → "北向5日净流入为负 ❌" ∈ redsOf i) := by
  refine ⟨fun hp => ⟨?_, ?_⟩, fun hp => ⟨?_, ?_⟩, fun hz => ?_⟩ <;>
    simp_all [greensOf, redsOf, nbGreen, nbRed, leB, geB]

/-- Witness for C9 at a northbound five-day sum of exactly zero. -/
theorem northbound_no_neutral_witness :
    "北向5日净流入为负 ❌" ∈ redsOf ⟨none, none, none, some (0, 0), none, none⟩ :=
  (northbound_no_neutral ⟨none, none, none, some (0, 0), none, none⟩ 0 0 rfl).2.2
    rfl

/-- `fetch_leverage_heat_ratio` (bot.py lines 164-177): the `try` body
unconditionally executes `return None` (the scraped balance figure has no
free-float denominator), and the `except` arm also returns `None`; so the
function is the constant `None`. -/
def fetch_leverage_heat : Option ℚ := none

/-- C10: the leverage-heat fetcher unconditionally returns the absent value,
so the leverage-heat red rule (`lev_ratio >= 0.03`) never fires and its red
label never appears in the red list. -/
theorem leverage_red_never (i : Inputs) (h : i.lev_heat = fetch_leverage_heat) :
    fetch_leverage_heat = none ∧ "两融/流通 ≥3%（热） ❌" ∉ redsOf i := by
  refine ⟨rfl, ?_⟩
  rw [fetch_leverage_heat] at h
  simp_all [redsOf, leB, geB, not_mem_nbRed]

/-- Witness for C10 with the leverage-heat input taken from the fetcher. -/
theorem leverage_red_never_witness :
    "两融/流通 ≥3%（热） ❌" ∉ redsOf ⟨none, none, none, none, none, none⟩ :=
  (leverage_red_never ⟨none, none, none, none, none, none⟩ rfl).2

/-- A decimal digit character: `'0' + d`. -/
def digitChar (d : ℕ) : Char := Char.ofNat (48 + d)

/-- The two-decimal field produced by `%.2f`: tens digit then ones digit of
the fractional part `k < 100`. -/
def twoDigits (k : ℕ) : String :=
  String.mk [digitChar (k / 10 % 10), digitChar (k % 10)]

/-- Python `f"{v:.2f}"` on a float modelled as a rational: the value rounded
to two decimal places (half to even), rendered as an optional minus sign, the
integer digits, a point, and exactly two decimal digits. -/
def fmtFloat2 (q : ℚ) : String :=
  let m := (roundHalfEven (q * 100)).natAbs
  ((if q < 0 then "-" else "") ++ toString (m / 100)) ++ "." ++ twoDigits (m % 100)

/-- `fmt` inside `build_summary` (bot.py lines 314-315):
`return "N/A" if v is None else f"{v:.2f}"`. -/
def fmt (v : Option ℚ) : String :=
  match v with
  | none => "N/A"
  | some x => fmtFloat2 x

/-- The indicator-value lines of the report rendered by `build_summary`
(bot.py lines 317-333), in source order. -/
def summaryValueLines (i : Inputs) : List String :=
  let erp := compute_erp i.sh_pe i.cgb10y
  ["• 上证PE(TTM)：" ++ fmt i.sh_pe,
   "• 全A(代理)PE(TTM)：" ++ fmt i.allA_pe ++ "  ← 无公开稳定口径时以沪深300估值×1.05近似",
   "• 10Y国债收益率(%)：" ++ fmt i.cgb10y,
   "• ERP(估算, %)：" ++ fmt erp,
   (match i.nb5 with
    | some (five_sum, last_day) =>
        "• 北向资金：近5日合计 " ++ fmtFloat2 five_sum ++ " 亿元；最新日 " ++
          fmtFloat2 last_day ++ " 亿元"
    | none => "• 北向资金：N/A"),
   (match i.lev_heat with
    | some r => "• 两融/流通占比：" ++ fmtFloat2 (r * 100) ++ "%"
    | none => "• 两融/流通占比：N/A（公开口径缺失）"),
   (match i.profit_breadth_ok with
    | none => "• 盈利覆盖面(最新季度)：N/A（如需启用，请在Secrets配置 TUSHARE_TOKEN）"
    | some b => "• 盈利覆盖面(最新季度)环比改善？ " ++ (if b then "是" else "否"))]

/-- Digit characters really are digits. -/
theorem digitChar_isDigit {d : ℕ} (h : d < 10) : (digitChar d).isDigit = true := by
  interval_cases d <;> decide

/-- C6: in the rendered summary report an absent indicator value renders
exactly as the literal `"N/A"` (never as the empty string and never as zero),
and a present numeric value renders in fixed two-decimal form: the rendered
string is some prefix followed by a point and exactly two decimal digits. -/
theorem render_absent_na (i : Inputs) :
    fmt none = "N/A" ∧ ("N/A" : String) ≠ "" ∧ ("N/A" : String) ≠ "0" ∧
    ("N/A" : String) ≠ "0.00" ∧
    (∀ q : ℚ, ∃ pre : String, ∃ d1 d2 : Char,
      fmt (some q) = pre ++ "." ++ String.mk [d1, d2] ∧
      d1.isDigit = true ∧ d2.isDigit = true) ∧
    (i.sh_pe = none → "• 上证PE(TTM)：N/A" ∈ summaryValueLines i) ∧
    (i.nb5 = none → "• 北向资金：N/A" ∈ summaryValueLines i) ∧
    (i.lev_heat = none →
      "• 两融/流通占比：N/A（公开口径缺失）" ∈ summaryValueLines i) ∧
    (i.profit_breadth_ok = none →
      "• 盈利覆盖面(最新季度)：N/A（如需启用，请在Secrets配置 TUSHARE_TOKEN）" ∈
        summaryValueLines i) := by
  refine ⟨rfl, by decide, by decide, by decide, fun q => ?_,
      fun h => ?_, fun h => ?_, fun h => ?_, fun h => ?_⟩
  · exact ⟨(if q < 0 then "-" else "") ++
        toString ((roundHalfEven (q * 100)).natAbs / 100),
      digitChar ((roundHalfEven (q * 100)).natAbs % 100 / 10 % 10),
      digitChar ((roundHalfEven (q * 100)).natAbs % 100 % 10),
      rfl, digitChar_isDigit (by omega), digitChar_isDigit (by omega)⟩
  all_goals simp [summaryValueLines, fmt, h]

/-- Witness for C6 with every indicator absent. -/
theorem render_absent_na_witness :
    "• 北向资金：N/A" ∈ summaryValueLines ⟨none, none, none, none, none, none⟩ :=
  ((render_absent_na ⟨none, none, none, none, none, none⟩).2.2.2.2.2.2.1) rfl

/-- The `"data"` object of the eastmoney `stock/get` JSON body, restricted to
the field `fetch_sh_index_pe_ttm` reads: the optional P/E field `"f162"`
(`none` when missing or null). -/
structure StockQuote where
  f162 : Option ℚ

/-- The JSON body of the `stock/get` endpoint: the `"data"` member, `none`
when the key is missing or its value is falsy (`None` or an empty object). -/
structure StockGetBody where
  data : Option StockQuote

/-- `fetch_sh_index_pe_ttm` (bot.py lines 59-79), run against the list of
bodies that successive `_json_get` calls would produce (first element first;
`none` models `_json_get` returning `None` after a raised network error, bad
HTTP status or JSON decode failure).  Returns the fetched value together with
the unconsumed responses.  The parsing follows
`if data and "data" in data and data["data"]:` then
`pe = data["data"].get("f162", None); if pe and pe > 0: return float(pe)`;
every other path falls through to `return None`. -/
def fetch_sh_index_pe_ttm (world : List (Option StockGetBody)) :
    Option ℚ × List (Option StockGetBody) :=
  match world with
  | [] => (none, [])
  | r :: rest =>
    match r with
    | none => (none, rest)
    | some body =>
      match body.data with
      | none => (none, rest)
      | some quote =>
        match quote.f162 with
        | none => (none, rest)
        | some pe => (if 0 < pe then some pe else none, rest)

/-- Digits of a decimal numeral, most significant first; `none` when the list
is empty or any character is not a digit. -/
def parseDigits (cs : List Char) : Option ℕ :=
  if cs = [] then none
  else if cs.all Char.isDigit then
    some (cs.foldl (fun n c => 10 * n + (c.toNat - 48)) 0)
  else none

/-- Python `float(s)` restricted to plain decimal notation: optional sign,
integer digits, optional point and fraction digits; any other input raises
`ValueError`, modelled as `none`.  (Python also accepts exponent and inf/nan
spellings; the northbound endpoint serves plain decimals and no claim
depends on those spellings.) -/
def pyFloat (s : String) : Option ℚ :=
  let cs := s.toList
  let sign : ℚ := if cs.head? = some '-' then -1 else 1
  let ds := if cs.head? = some '-' ∨ cs.head? = some '+' then cs.drop 1 else cs
  let intPart := ds.takeWhile (fun c => c ≠ '.')
  let rest := ds.dropWhile (fun c => c ≠ '.')
  match rest with
  | [] => (parseDigits intPart).map (fun n => sign * n)
  | _ :: frac =>
    match parseDigits intPart, parseDigits frac with
    | some a, some b => some (sign * ((a : ℚ) + (b : ℚ) / 10 ^ frac.length))
    | _, _ => none

/-- Python `s.split(c)` on a character list. -/
def splitOnChar (c : Char) : List Char → List (List Char)
  | [] => [[]]
  | x :: xs =>
    match splitOnChar c xs, decide (x = c) with
    | r, true => [] :: r
    | [], false => [[x]]
    | h :: t, false => (x :: h) :: t

/-- The parse of one kline entry in `fetch_northbound_5day_inflow`:
`float(item.split(",")[1])`; `none` models the `IndexError` (fewer than two
fields) and `ValueError` (malformed number) paths. -/
def parseNet (item : String) : Option ℚ :=
  match (splitOnChar ',' item.toList).get? 1 with
  | some s => pyFloat (String.mk s)
  | none => none

/-- The `"data"` object of the `kamtbs.kline` body: the optional `"klines"`
array of comma-separated entry strings. -/
structure KamtData where
  klines : Option (List String)

/-- The JSON body of the `kamtbs.kline` endpoint. -/
structure KamtBody where
  data : Option KamtData

/-- `fetch_northbound_5day_inflow` (bot.py lines 137-162), run against the
bodies produced by successive `_json_get` calls.  Follows the source: read
`data["data"]["klines"]`, take the last five entries (`arr[-5:]`, the whole
list when shorter), parse the net-inflow field of each,
`five_sum = round(sum(vals), 2)`, `last_day = float(arr[-1].split(",")[1])`;
any exception on the way (a failed request, missing keys, a short or
malformed entry, an empty kline array) is caught and yields `None`. -/
def fetch_northbound_5day_inflow (world : List (Option KamtBody)) :
    Option (ℚ × ℚ) × List (Option KamtBody) :=
  match world with
  | [] => (none, [])
  | r :: rest =>
    let res : Option (ℚ × ℚ) := do
      let body ← r
      let d ← body.data
      let arr ← d.klines
      let vals ← (arr.drop (arr.length - 5)).mapM parseNet
      let lastItem ← arr.getLast?
      let last_day ← parseNet lastItem
      pure (round2 vals.sum, last_day)
    (res, rest)

/-- C5 counterexample: with a first request that fails and a second that
would succeed (`f162 = 18`), `fetch_sh_index_pe_ttm` returns the absent value
at once and leaves the successful response unconsumed — the code has no retry
loop, no configurable retry count and no backoff delay. -/
theorem fetch_no_retry_counterexample :
    fetch_sh_index_pe_ttm [none, some ⟨some ⟨some 18⟩⟩] =
      (none, [some ⟨some ⟨some 18⟩⟩]) := rfl

/-- C5 amended: the fetchers never raise — every failure path (failed
request, missing keys, malformed numbers) produces the absent value — but
each issues exactly one request, consuming exactly the head of the response
list, with no retry: a failed first request yields `None` immediately. -/
theorem fetch_single_attempt_total (w1 : List (Option StockGetBody))
    (w2 : List (Option KamtBody)) :
    ((fetch_sh_index_pe_ttm w1).2 = w1.tail) ∧
    ((fetch_sh_index_pe_ttm w1).1 = none ∨
      ∃ pe : ℚ, 0 < pe ∧ (fetch_sh_index_pe_ttm w1).1 = some pe) ∧
    ((fetch_northbound_5day_inflow w2).2 = w2.tail) ∧
    ((fetch_northbound_5day_inflow w2).1 = none ∨
      ∃ v, (fetch_northbound_5day_inflow w2).1 = some v) ∧
    (fetch_sh_index_pe_ttm (none :: w1.tail) = (none, w1.tail)) ∧
    (fetch_northbound_5day_inflow (none :: w2.tail) = (none, w2.tail)) := by
  refine ⟨?_, ?_, ?_, ?_, rfl, rfl⟩
  · match w1 with
    | [] => rfl
    | none :: rest => rfl
    | some ⟨none⟩ :: rest => rfl
    | some ⟨some ⟨none⟩⟩ :: rest => rfl
    | some ⟨some ⟨some pe⟩⟩ :: rest => rfl
  · match w1 with
    | [] => exact Or.inl rfl
    | none :: rest => exact Or.inl rfl
    | some ⟨none⟩ :: rest => exact Or.inl rfl
    | some ⟨some ⟨none⟩⟩ :: rest => exact Or.inl rfl
    | some ⟨some ⟨some pe⟩⟩ :: rest =>
      by_cases hpe : 0 < pe
      · exact Or.inr ⟨pe, hpe, by simp [fetch_sh_index_pe_ttm, hpe]⟩
      · exact Or.inl (by simp [fetch_sh_index_pe_ttm, hpe])
  · match w2 with
    | [] => rfl
    | r :: rest => rfl
  · match w2 with
    | [] => exact Or.inl rfl
    | r :: rest =>
      cases h : (fetch_northbound_5day_inflow (r :: rest)).1 with
      | none => exact Or.inl rfl
      | some v => exact Or.inr ⟨v, rfl⟩

/-- The outcome the single `requests.post` of `tg_send_message` would have,
had it been attempted: a raised network error, a non-success HTTP status
(`raise_for_status` raises), or success. -/
inductive SendOutcome where
  | netError
  | badStatus
  | ok

/-- `tg_send_message` (bot.py lines 355-366), over the configured credentials
(`BOT_TOKEN` and `CHAT_ID` are the empty string when the environment variable
is unset, as with `os.getenv(..., "")`) and the outcome the network call
would have.  Returns the success flag together with the number of network
calls attempted: `if not BOT_TOKEN or not CHAT_ID: return False` precedes any
request; otherwise the request is issued once and any exception is caught and
reported as `False`. -/
def tg_send_message (botToken chatId : String) (net : SendOutcome) : Bool × ℕ :=
  if botToken = "" ∨ chatId = "" then (false, 0)
  else
    match net with
    | .netError => (false, 1)
    | .badStatus => (false, 1)
    | .ok => (true, 1)

/-- C7: with an absent bot token or chat identity, `send` returns false
without attempting any network call; with both present, a send whose network
call fails or returns a non-success status is caught and reported as false,
never raised. -/
theorem tg_send_spec (botToken chatId : String) (net : SendOutcome) :
    (botToken = "" ∨ chatId = "" →
      tg_send_message botToken chatId net = (false, 0)) ∧
    (botToken ≠ "" → chatId ≠ "" →
      ((net = .netError ∨ net = .badStatus) →
        tg_send_message botToken chatId net = (false, 1)) ∧
      (net = .ok → tg_send_message botToken chatId net = (true, 1))) := by
  refine ⟨fun h => ?_, fun h1 h2 => ⟨fun h3 => ?_, fun h3 => ?_⟩⟩
  · simp only [tg_send_message]
    rw [if_pos h]
  · rcases h3 with h3 | h3 <;>
      (subst h3 ; simp only [tg_send_message] ; rw [if_neg (not_or.mpr ⟨h1, h2⟩)])
  · subst h3
    simp only [tg_send_message]
    rw [if_neg (not_or.mpr ⟨h1, h2⟩)]

/-- Witness for C7: unset credentials short-circuit, and set credentials with
a failing call report false. -/
theorem tg_send_spec_witness :
    tg_send_message "" "chat" SendOutcome.ok = (false, 0) ∧
    tg_send_message "tok" "chat" SendOutcome.netError = (false, 1) :=
  ⟨(tg_send_spec "" "chat" SendOutcome.ok).1 (Or.inl rfl),
   ((tg_send_spec "tok" "chat" SendOutcome.netError).2 (by decide) (by decide)).1
     (Or.inl rfl)⟩

/-- The opening curly brace character. -/
def openBrace : Char := '\x7b'

/-- The closing curly brace character. -/
def closeBrace : Char := '\x7d'

/-- Python `s.startswith(p)`: Python strings are sequences of code points,
modelled as the character list of the Lean string. -/
def pyStartswith (s p : String) : Bool := p.toList.isPrefixOf s.toList

/-- Index of the first occurrence of `c`, `none` when absent. -/
def firstIdx (c : Char) : List Char → Option ℕ
  | [] => none
  | x :: xs => if x = c then some 0 else (firstIdx c xs).map (· + 1)

/-- Python `s.find(c)`: index of the first occurrence, `-1` when absent. -/
def pyFind (s : String) (c : Char) : ℤ :=
  match firstIdx c s.toList with
  | some i => (i : ℤ)
  | none => -1

/-- Python `s.rfind(c)`: index of the last occurrence, `-1` when absent. -/
def pyRfind (s : String) (c : Char) : ℤ :=
  match firstIdx c s.toList.reverse with
  | some j => ((s.toList.length - 1 - j : ℕ) : ℤ)
  | none => -1

/-- Resolve a Python slice bound against a length: a negative index counts
from the end, and the result is clamped into `[0, len]`. -/
def pySliceIdx (len : ℕ) (i : ℤ) : ℕ :=
  if i < 0 then ((len : ℤ) + i).toNat else min i.toNat len

/-- Python `s[i:j]` for integer slice bounds. -/
def pySlice (s : String) (i j : ℤ) : String :=
  let cs := s.toList
  let a := pySliceIdx cs.length i
  let b := pySliceIdx cs.length j
  String.mk ((cs.drop a).take (b - a))

/-- The JSONP-stripping step of `_json_get` (bot.py lines 51-54): after
`txt = r.text.strip()` the code runs
`if txt.startswith("jQuery") or txt.startswith("callback") or
txt.startswith("(\x7b") is False and txt.find("\x7b") > 0:
txt = txt[txt.find("\x7b"): txt.rfind("\x7d")+1]`
(Python parses this condition as the disjunction of the two prefix tests and
of the conjunction of the final two tests). -/
def stripJsonp (txt : String) : String :=
  if pyStartswith txt "jQuery" || pyStartswith txt "callback" ||
      (!pyStartswith txt "(\x7b" && decide (pyFind txt openBrace > 0)) then
    pySlice txt (pyFind txt openBrace) (pyRfind txt closeBrace + 1)
  else txt

/-- Modelled from the spec: the substring of the text from the first opening
brace through the last closing brace — the reduction applied to a
JSONP-wrapped body before JSON parsing; the text itself when either brace is
absent (the spec only speaks of wrapped bodies, which contain both). -/
def firstToLastBrace (txt : String) : String :=
  let cs := txt.toList
  match firstIdx openBrace cs, firstIdx closeBrace cs.reverse with
  | some i, some j => String.mk ((cs.drop i).take (cs.length - j - i))
  | _, _ => txt

/-- A character that occurs in a list has a first index, below the length. -/
theorem firstIdx_of_mem {c : Char} {cs : List Char} (h : c ∈ cs) :
    ∃ i, firstIdx c cs = some i ∧ i < cs.length := by
  induction cs with
  | nil => cases h
  | cons x xs ih =>
    by_cases hx : x = c
    · exact ⟨0, by simp [firstIdx, hx], by simp⟩
    · have hmem : c ∈ xs := by
        rcases List.mem_cons.mp h with h1 | h1
        · exact absurd h1.symm hx
        · exact h1
      obtain ⟨i, hi, hlen⟩ := ih hmem
      refine ⟨i + 1, by simp [firstIdx, hx, hi], ?_⟩
      simp only [List.length_cons]
      omega

/-- Evaluate `pySlice` at in-range natural bounds. -/
theorem pySlice_nat (txt : String) (a b : ℕ) (ha : a ≤ txt.toList.length)
    (hb : b ≤ txt.toList.length) :
    pySlice txt (a : ℤ) (b : ℤ) =
      String.mk ((txt.toList.drop a).take (b - a)) := by
  simp only [pySlice, pySliceIdx]
  rw [if_neg (by omega), if_neg (by omega)]
  have e1 : min ((a : ℤ)).toNat txt.toList.length = a := by omega
  have e2 : min ((b : ℤ)).toNat txt.toList.length = b := by omega
  rw [e1, e2]

/-- C8: before JSON parsing, `_json_get` strips a JSONP wrapper: a response
text that begins with a callback name (`jQuery...` or `callback...`) and
contains braces is reduced to the substring from the first opening brace
through the last closing brace, while a plain JSON object body — text
beginning with an opening brace — is left to be parsed unchanged. -/
theorem stripJsonp_spec (txt : String) :
    ((pyStartswith txt "jQuery" = true ∨ pyStartswith txt "callback" = true) →
      openBrace ∈ txt.toList → closeBrace ∈ txt.toList →
      stripJsonp txt = firstToLastBrace txt) ∧
    (txt.toList.head? = some openBrace → stripJsonp txt = txt) := by
  constructor
  · intro hcb hob hcbr
    obtain ⟨i, hi, hilen⟩ := firstIdx_of_mem hob
    obtain ⟨j, hj, hjlen⟩ := firstIdx_of_mem (List.mem_reverse.mpr hcbr)
    rw [List.length_reverse] at hjlen
    have hdi : firstIdx openBrace txt.data = some i := hi
    have hdj : firstIdx closeBrace txt.data.reverse = some j := hj
    have hcond : (pyStartswith txt "jQuery" || pyStartswith txt "callback" ||
        (!pyStartswith txt "(\x7b" && decide (pyFind txt openBrace > 0))) =
          true := by
      rcases hcb with h | h <;> simp [h]
    rw [stripJsonp, if_pos hcond]
    have hfind : pyFind txt openBrace = (i : ℤ) := by
      simp [pyFind, hi, hdi]
    have hrfind : pyRfind txt closeBrace + 1 =
        ((txt.toList.length - j : ℕ) : ℤ) := by
      simp only [pyRfind, hj, hdj]
      omega
    rw [hfind, hrfind,
      pySlice_nat txt i (txt.toList.length - j) (le_of_lt hilen) (by omega)]
    simp only [firstToLastBrace, hi, hj, hdi, hdj]
  · intro hh
    obtain ⟨rest, hrest⟩ : ∃ rest, txt.toList = openBrace :: rest := by
      cases htl : txt.toList with
      | nil => rw [htl] at hh ; cases hh
      | cons a l =>
        rw [htl] at hh
        simp only [List.head?_cons, Option.some.injEq] at hh
        exact ⟨l, by rw [hh]⟩
    have hrest2 : txt.data = openBrace :: rest := hrest
    have hJ : pyStartswith txt "jQuery" = false := by
      have he : "jQuery".toList = ['j', 'Q', 'u', 'e', 'r', 'y'] := rfl
      simp [pyStartswith, he, hrest, hrest2, List.isPrefixOf, openBrace]
    have hC : pyStartswith txt "callback" = false := by
      have he : "callback".toList = ['c', 'a', 'l', 'l', 'b', 'a', 'c', 'k'] :=
        rfl
      simp [pyStartswith, he, hrest, hrest2, List.isPrefixOf, openBrace]
    have hF : pyFind txt openBrace = 0 := by
      simp [pyFind, hrest, hrest2, firstIdx]
    simp [stripJsonp, hJ, hC, hF]

/-- Witness for C8 at a concrete JSONP-wrapped body and a plain JSON body. -/
theorem stripJsonp_spec_witness :
    stripJsonp "jQuery123(\x7ba:1\x7d)" =
      firstToLastBrace "jQuery123(\x7ba:1\x7d)" ∧
    stripJsonp "\x7ba:1\x7d" = "\x7ba:1\x7d" :=
  ⟨(stripJsonp_spec "jQuery123(\x7ba:1\x7d)").1 (Or.inl (by decide))
      (by decide) (by decide),
   (stripJsonp_spec "\x7ba:1\x7d").2 (by decide)⟩

end AShare
